import Mathlib

/-!
Verification of the `astrbot_plugin_ai_dynamic` plugin (memory system and
task scheduler) against its natural-language specification.

The Python modules `src/core/memory.py` and `src/core/scheduler.py` are
shallowly embedded below.  Conventions of the embedding:

* The SQLite database behind `MemorySystem` is a pair of lists
  (`chat_records`, `daily_summaries`); SQL `DATE(...)` values are modelled
  as integers (days since an arbitrary epoch), which order exactly like the
  ISO date strings the code compares.
* Wall-clock instants (`datetime.now()`, entries of `last_post_times`) are
  modelled as natural numbers of minutes since the epoch, so that
  `.date()` is `/ 1440`, `.time()` is `% 1440`, and `datetime` subtraction
  is integer subtraction in minutes.
* `random.random()` draws and probabilities are rationals.
* LLM calls are modelled by an `Option String` argument carrying the
  normalized response text (`none` models a failure or an exception, which
  the surrounding `try/except` turns into a `None` result).
* A SQLite `INSERT OR REPLACE` keyed by `(user_id, summary_date)` deletes
  the conflicting row and inserts the new one, which is what
  `save_daily_summary` compiles to here.
-/

/-- Row of the `chat_records` table (src/core/memory.py, `init_database`).
`message_date` is `DATE(message_time)` as a day number. -/
structure ChatRecord where
  user_id : String
  message_content : String
  message_date : Int
  session_id : String
  platform : String
deriving DecidableEq, Repr

/-- Row of the `daily_summaries` table, unique per `(user_id, summary_date)`. -/
structure DailySummary where
  user_id : String
  summary_date : Int
  summary_content : String
  message_count : Nat
deriving DecidableEq, Repr

/-- The two tables of `memory.db`. -/
structure MemoryDB where
  chat_records : List ChatRecord
  daily_summaries : List DailySummary
deriving DecidableEq, Repr

/-- The `memory_config` section of the plugin configuration, with the keys
`save_message`, `cleanup_old_data` and the whitelist check read. -/
structure MemoryConfig where
  enable_memory : Bool
  user_whitelist : List String
  max_daily_messages : Nat
  memory_days : Nat
deriving DecidableEq, Repr

/-- `MemorySystem.is_user_in_whitelist` (memory.py lines 62-65). -/
def is_user_in_whitelist (cfg : MemoryConfig) (user_id : String) : Bool :=
  cfg.user_whitelist.contains user_id

/-- `MemorySystem.get_daily_message_count` (memory.py lines 96-107):
`SELECT COUNT(*) FROM chat_records WHERE user_id = ? AND DATE(message_time) = ?`. -/
def get_daily_message_count (db : MemoryDB) (user_id : String) (date : Int) : Nat :=
  (db.chat_records.filter
    (fun r => r.user_id == user_id && r.message_date == date)).length

/-- `MemorySystem.save_message` (memory.py lines 67-94): returns the database
unchanged when memory is disabled, the user is not whitelisted, or today's
count has reached `max_daily_messages`; otherwise inserts the record dated
`today`. -/
def save_message (cfg : MemoryConfig) (db : MemoryDB) (today : Int)
    (user_id message session_id platform : String) : MemoryDB :=
  if !cfg.enable_memory then db
  else if !is_user_in_whitelist cfg user_id then db
  else if cfg.max_daily_messages ≤ get_daily_message_count db user_id today then db
  else { db with chat_records := db.chat_records ++
          [⟨user_id, message, today, session_id, platform⟩] }

/-- Folding `save_message` over a list of message texts: one user sending a
sequence of messages within a single day. -/
def save_messages (cfg : MemoryConfig) (db : MemoryDB) (today : Int)
    (user_id : String) (msgs : List String) : MemoryDB :=
  msgs.foldl (fun d m => save_message cfg d today user_id m "" "") db

/-- `MemorySystem.get_messages_by_date` (memory.py lines 234-255). -/
def get_messages_by_date (db : MemoryDB) (user_id : String) (date : Int) :
    List ChatRecord :=
  db.chat_records.filter (fun r => r.user_id == user_id && r.message_date == date)

/-- `MemorySystem.save_daily_summary` (memory.py lines 257-268):
`INSERT OR REPLACE INTO daily_summaries ...` keyed by the
`UNIQUE(user_id, summary_date)` constraint, i.e. delete any conflicting row
and insert the fresh one. -/
def save_daily_summary (db : MemoryDB) (user_id : String) (date : Int)
    (summary : String) (message_count : Nat) : MemoryDB :=
  let kept := db.daily_summaries.filter
    (fun s => !(s.user_id == user_id && s.summary_date == date))
  { db with daily_summaries := kept ++ [⟨user_id, date, summary, message_count⟩] }

/-- `MemorySystem.get_daily_summary` (memory.py lines 270-290):
`SELECT ... WHERE user_id = ? AND summary_date = ?`, `fetchone`. -/
def get_daily_summary (db : MemoryDB) (user_id : String) (date : Int) :
    Option DailySummary :=
  db.daily_summaries.find? (fun s => s.user_id == user_id && s.summary_date == date)

/-- Result of one `generate_daily_summary` call: the returned optional text,
the database afterwards, and whether the LLM was consulted. -/
structure GenSummaryResult where
  result : Option String
  db : MemoryDB
  llm_called : Bool
deriving DecidableEq, Repr

/-- `MemorySystem.generate_daily_summary` (memory.py lines 134-186): if a
summary for `(user_id, date)` already exists its `summary_content` is
returned with no LLM call and no write; if the day has no messages, `None`
with no LLM call; otherwise the LLM is consulted (`llm_response`, `none` on
failure) and a truthy response is stored via `save_daily_summary`. -/
def generate_daily_summary (db : MemoryDB) (user_id : String) (date : Int)
    (llm_response : Option String) : GenSummaryResult :=
  match get_daily_summary db user_id date with
  | some existing => ⟨some existing.summary_content, db, false⟩
  | none =>
    let messages := get_messages_by_date db user_id date
    if messages.isEmpty then ⟨none, db, false⟩
    else
      match llm_response with
      | some s =>
        if s = "" then ⟨none, db, true⟩
        else ⟨some s, save_daily_summary db user_id date s messages.length, true⟩
      | none => ⟨none, db, true⟩

/-- `MemorySystem.cleanup_old_data` (memory.py lines 317-343): deletes chat
records with `DATE(message_time) < now - memory_days` and summaries with
`summary_date < now - memory_days * 2`. -/
def cleanup_old_data (cfg : MemoryConfig) (db : MemoryDB) (now_date : Int) :
    MemoryDB :=
  let cutoff_date : Int := now_date - cfg.memory_days
  let summary_cutoff : Int := now_date - cfg.memory_days * 2
  { chat_records :=
      db.chat_records.filter (fun r => !(r.message_date < cutoff_date)),
    daily_summaries :=
      db.daily_summaries.filter (fun s => !(s.summary_date < summary_cutoff)) }

/-- The `dynamic_config` section read by `_should_post_dynamic`
(src/core/scheduler.py lines 135-164).  `start_time` and `end_time` are
minutes of day (defaults 09:00 = 540 and 22:00 = 1320). -/
structure DynamicConfig where
  daily_post_count : Nat
  start_time : Nat
  end_time : Nat
  min_interval_hours : Nat
deriving DecidableEq, Repr

/-- `TaskScheduler._should_post_dynamic` (scheduler.py lines 135-164).
`last_post_times` and `now` are instants in minutes; `draw` is the
`random.random()` value.  The posting probability is the literal `0.3` on
line 164; no configuration key feeds it. -/
def should_post_dynamic (cfg : DynamicConfig) (last_post_times : List Nat)
    (now : Nat) (draw : ℚ) : Bool :=
  let today := now / 1440
  let today_posts := last_post_times.filter (fun t => t / 1440 == today)
  if cfg.daily_post_count ≤ today_posts.length then false
  else if !(cfg.start_time ≤ now % 1440 ∧ now % 1440 ≤ cfg.end_time) then false
  else
    match last_post_times.max? with
    | some last_post =>
      if (now : Int) - (last_post : Int) < (cfg.min_interval_hours : Int) * 60
      then false
      else decide (draw < 3 / 10)
    | none => decide (draw < 3 / 10)

/-- The fixed pool of generic posts in `_generate_general_dynamic`
(scheduler.py lines 263-275). -/
def general_topics : List String := [
  "今天的天气真不错，心情也跟着好起来了☀️",
  "突然想起一些美好的回忆，感觉生活还是很有意思的😊",
  "最近在学习新的东西，虽然有点累但很充实💪",
  "和朋友聊天总是能得到很多启发，真好👥",
  "有时候放慢脚步，会发现生活中很多小美好🌸",
  "今天完成了一些小目标，给自己点个赞👍",
  "音乐真是治愈的良药，瞬间心情就好了🎵"]

/-- `TaskScheduler._generate_general_dynamic` (scheduler.py lines 263-275):
`random.choice(general_topics)`, with the choice index made explicit. -/
def generate_general_dynamic (pick : Fin general_topics.length) : String :=
  general_topics.get pick

/-- `TaskScheduler._generate_personalized_dynamic` (scheduler.py lines
202-261): builds a prompt from the summaries (elided — it does not affect
the returned value) and returns the normalized LLM response; any LLM
failure or exception yields `None`. -/
def generate_personalized_dynamic (summaries : List String)
    (llm_response : Option String) : Option String :=
  llm_response

/-- The `content` selection inside `_generate_and_post_dynamic`
(scheduler.py lines 183-187): the generic pool when the chosen user has no
recent summaries, otherwise the personalized LLM path. -/
def select_post_content (recent_summaries : List String)
    (llm_response : Option String) (pick : Fin general_topics.length) :
    Option String :=
  if recent_summaries.isEmpty then some (generate_general_dynamic pick)
  else generate_personalized_dynamic recent_summaries llm_response

/-- Observable outcome of one `_generate_and_post_dynamic` call. -/
inductive PostOutcome where
  | published : String → PostOutcome
  | skipped : PostOutcome
deriving DecidableEq, Repr

/-- `TaskScheduler._generate_and_post_dynamic` (scheduler.py lines 166-200):
skips when QZone is unconfigured or the whitelist is empty; otherwise picks
content via `select_post_content` and publishes it when it is truthy (the
whole body is wrapped in `try/except`, so no failure escapes). -/
def generate_and_post_dynamic (qzone_configured : Bool)
    (whitelist : List String) (recent_summaries : List String)
    (llm_response : Option String) (pick : Fin general_topics.length)
    (publish_ok : Bool) : PostOutcome :=
  if !qzone_configured then .skipped
  else if whitelist.isEmpty then .skipped
  else
    match select_post_content recent_summaries llm_response pick with
    | none => .skipped
    | some c =>
      if c = "" then .skipped
      else if publish_ok then .published c else .skipped

/-- In-memory scheduler lifecycle state (`self.running`, `self.tasks` in
scheduler.py lines 17-18); tasks are abstracted to their four loop indices. -/
structure SchedulerState where
  running : Bool
  tasks : List Nat
deriving DecidableEq, Repr

/-- `TaskScheduler.start` (scheduler.py lines 25-39): no-op when already
running, otherwise sets `running` and spawns the four loop tasks. -/
def TaskScheduler.start (s : SchedulerState) : SchedulerState :=
  if s.running then s else { running := true, tasks := [0, 1, 2, 3] }

/-- `TaskScheduler.stop` (scheduler.py lines 41-55): clears `running`,
cancels and awaits every task (`gather` with `return_exceptions=True`, so
no error propagates), and empties the task list. -/
def TaskScheduler.stop (s : SchedulerState) : SchedulerState :=
  { running := false, tasks := [] }

/-- The probability computed on scheduler.py line 306:
`comment_config.get('comment_probability', 30) / 100` (Python true
division). -/
def comment_probability_fraction (comment_probability : ℚ) : ℚ :=
  comment_probability / 100

/-- The per-post comment decision on scheduler.py lines 315-316:
`not dynamic.get('has_comment', False) and random.random() < probability`. -/
def should_comment (has_comment : Bool) (draw : ℚ)
    (comment_probability : ℚ) : Bool :=
  !has_comment && decide (draw < comment_probability_fraction comment_probability)

/-! ### Helper lemmas -/

/-- Searching a list whose kept prefix consists exactly of the elements
refuting the predicate finds the appended element. -/
theorem find?_filter_not_append {α : Type} (l : List α) (p : α → Bool) (x : α)
    (hx : p x = true) :
    ((l.filter fun y => !p y) ++ [x]).find? p = some x := by
  induction l with
  | nil => simp [List.find?, hx]
  | cons a as ih =>
    by_cases h : p a
    · simpa [List.filter_cons, h] using ih
    · simpa [List.filter_cons, h, List.find?_cons, h] using ih

/-- One `save_message` call changes the user-day count by exactly one when
the guards pass and leaves it unchanged otherwise. -/
theorem get_daily_message_count_save (cfg : MemoryConfig) (db : MemoryDB)
    (today : Int) (u m si pl : String) :
    get_daily_message_count (save_message cfg db today u m si pl) u today =
      if cfg.enable_memory = true ∧ is_user_in_whitelist cfg u = true ∧
          get_daily_message_count db u today < cfg.max_daily_messages
      then get_daily_message_count db u today + 1
      else get_daily_message_count db u today := by
  unfold save_message
  by_cases he : cfg.enable_memory
  · by_cases hw : is_user_in_whitelist cfg u
    · by_cases hc : cfg.max_daily_messages ≤ get_daily_message_count db u today
      · simp [he, hw, hc, Nat.not_lt.mpr hc]
      · simp only [he, hw, hc, Bool.not_true, Bool.false_eq_true, if_false,
          if_true, Nat.not_le.mp hc, and_true, true_and, if_pos]
        unfold get_daily_message_count
        simp [List.filter_append]
    · simp [he, hw]
  · simp [he]

/-- Folding `save_message` over `msgs` starting below the cap yields the
minimum of "everything inserted" and the cap. -/
theorem save_messages_count (cfg : MemoryConfig) (today : Int) (u : String)
    (he : cfg.enable_memory = true) (hw : is_user_in_whitelist cfg u = true) :
    ∀ (msgs : List String) (db : MemoryDB),
      get_daily_message_count db u today ≤ cfg.max_daily_messages →
      get_daily_message_count (save_messages cfg db today u msgs) u today =
        min (get_daily_message_count db u today + msgs.length)
          cfg.max_daily_messages := by
  intro msgs
  induction msgs with
  | nil => intro db hdb; simpa [save_messages] using Nat.min_eq_left hdb
  | cons m ms ih =>
    intro db hdb
    have hstep := get_daily_message_count_save cfg db today u m "" ""
    by_cases hlt : get_daily_message_count db u today < cfg.max_daily_messages
    · have h1 : get_daily_message_count
          (save_message cfg db today u m "" "") u today =
          get_daily_message_count db u today + 1 := by
        rw [hstep, if_pos ⟨he, hw, hlt⟩]
      have := ih (save_message cfg db today u m "" "") (by rw [h1]; omega)
      rw [save_messages] at this ⊢
      simp only [List.foldl_cons] at this ⊢
      rw [this, h1, List.length_cons]
      omega
    · have heq : get_daily_message_count db u today = cfg.max_daily_messages := by
        omega
      have h1 : get_daily_message_count
          (save_message cfg db today u m "" "") u today =
          get_daily_message_count db u today := by
        rw [hstep, if_neg (by simp [hlt])]
      have := ih (save_message cfg db today u m "" "") (by rw [h1]; omega)
      rw [save_messages] at this ⊢
      simp only [List.foldl_cons] at this ⊢
      rw [this, h1, heq, List.length_cons]
      omega

/-! ### Claims -/

/-- C1 (counterexample): `save_daily_summary` uses `INSERT OR REPLACE`, so a
second call for the same `(user, date)` key with different content
overwrites the first: after `putSummary("u",0,"a")` then
`putSummary("u",0,"b")` the stored summary is `"b"`, not `"a"` as the claim
states. -/
theorem claim_C1_counterexample :
    (get_daily_summary
        (save_daily_summary (save_daily_summary ⟨[], []⟩ "u" 0 "a" 1) "u" 0 "b" 2)
        "u" 0).map DailySummary.summary_content = some "b" ∧
    ("b" : String) ≠ "a" := by
  exact ⟨rfl, by decide⟩

/-- C1 (amended): `save_daily_summary` is a last-write-wins upsert keyed by
`(user, date)`: after two calls for the same key the stored summary is the
second content and count, for every starting database. -/
theorem claim_C1 (db : MemoryDB) (u : String) (d : Int) (c1 c2 : String)
    (n1 n2 : Nat) :
    get_daily_summary
        (save_daily_summary (save_daily_summary db u d c1 n1) u d c2 n2) u d =
      some ⟨u, d, c2, n2⟩ := by
  unfold get_daily_summary save_daily_summary
  exact find?_filter_not_append _ _ _ (by simp)

/-- C2 (counterexample): the auto-post gate's probability is the literal
`0.3` on scheduler.py line 164 — there is no configured post probability —
so with empty `last_post_times`, the default 09:00-22:00 window, noon, and
a draw of 1/2 the gate is false, refuting "evaluates true deterministically
for every value of the uniform random draw". -/
theorem claim_C2_counterexample :
    should_post_dynamic ⟨2, 540, 1320, 3⟩ [] 720 (1 / 2) = false := by
  have h : ¬ ((1 : ℚ) / 2 < 3 / 10) := by norm_num
  unfold should_post_dynamic
  norm_num [List.max?, h]

/-- C2 (amended): with empty `recentPostTimestamps`, a positive daily
quota, and a time-of-day inside the configured window, the gate equals
`draw < 0.3`: the probability is hardcoded at 0.3 (not configurable, so a
"probability 1.0" cannot be configured) and the gate is stochastic, not
deterministic. -/
theorem claim_C2 (cfg : DynamicConfig) (now : Nat) (draw : ℚ)
    (hq : 0 < cfg.daily_post_count)
    (hs : cfg.start_time ≤ now % 1440) (he : now % 1440 ≤ cfg.end_time) :
    should_post_dynamic cfg [] now draw = decide (draw < 3 / 10) := by
  unfold should_post_dynamic
  simp [Nat.not_le.mpr hq, hs, he, List.max?]

/-- C2 (witness): concrete instance of the amended gate equivalence at the
default configuration, noon, and a draw of 1/10. -/
theorem claim_C2_witness :
    should_post_dynamic ⟨2, 540, 1320, 3⟩ [] 720 (1 / 10) =
      decide ((1 : ℚ) / 10 < 3 / 10) :=
  claim_C2 ⟨2, 540, 1320, 3⟩ 720 (1 / 10) (by decide) (by decide) (by decide)

/-- C3 (counterexample): when the chosen user's summaries are non-empty and
the LLM fails, `_generate_and_post_dynamic` does NOT fall back to the
generic pool: the selected content is `None` and nothing is published, so
the claim's "or the LLM call fails" branch is wrong. -/
theorem claim_C3_counterexample :
    select_post_content ["s"] none ⟨0, by decide⟩ = none ∧
    generate_and_post_dynamic true ["u"] ["s"] none ⟨0, by decide⟩ true =
      PostOutcome.skipped := by
  exact ⟨rfl, rfl⟩

/-- C3 (amended): when the selected user's recent summaries are empty, the
content is drawn from the fixed pool of generic posts and is never the
empty string, for every LLM outcome and every random choice; LLM failure
with non-empty summaries instead yields no content (and the surrounding
`try/except` keeps any failure from escaping). -/
theorem claim_C3 (llm_response : Option String)
    (pick : Fin general_topics.length) :
    ∃ c, select_post_content [] llm_response pick = some c ∧
      c ∈ general_topics ∧ c ≠ "" := by
  refine ⟨general_topics.get pick, rfl, List.get_mem _ pick.1 pick.2, ?_⟩
  revert pick
  decide

/-- C5 (confirmed): with `daily_post_count = 2` and at least two entries of
`last_post_times` dated today, the gate is false whatever the window, the
spacing and the draw. -/
theorem claim_C5 (cfg : DynamicConfig) (last_post_times : List Nat)
    (now : Nat) (draw : ℚ) (hc : cfg.daily_post_count = 2)
    (h2 : 2 ≤ (last_post_times.filter fun t => t / 1440 == now / 1440).length) :
    should_post_dynamic cfg last_post_times now draw = false := by
  unfold should_post_dynamic
  rw [hc, if_pos h2]

/-- C5 (witness): concrete gate evaluation with two same-day posts already
recorded. -/
theorem claim_C5_witness :
    should_post_dynamic ⟨2, 540, 1320, 3⟩ [600, 700] 720 (1 / 10) = false :=
  claim_C5 ⟨2, 540, 1320, 3⟩ [600, 700] 720 (1 / 10) rfl (by decide)

/-- C6 (confirmed): with `min_interval_hours = 3` and some entry of
`last_post_times` exactly 90 minutes before `now`, the gate is false for
every quota, window and draw. -/
theorem claim_C6 (cfg : DynamicConfig) (last_post_times : List Nat)
    (now t : Nat) (draw : ℚ) (hm : cfg.min_interval_hours = 3)
    (ht : t ∈ last_post_times) (hd : (now : Int) - (t : Int) = 90) :
    should_post_dynamic cfg last_post_times now draw = false := by
  have hnonempty : last_post_times ≠ [] := by
    intro hnil
    rw [hnil] at ht
    cases ht
  unfold should_post_dynamic
  by_cases hq : cfg.daily_post_count ≤
      (last_post_times.filter fun x => x / 1440 == now / 1440).length
  · rw [if_pos hq]
  · rw [if_neg hq]
    by_cases hw : cfg.start_time ≤ now % 1440 ∧ now % 1440 ≤ cfg.end_time
    · rw [if_neg (by simp [hw])]
      cases hmax : last_post_times.max? with
      | none => exact absurd (List.max?_eq_none_iff.mp hmax) hnonempty
      | some m =>
        have hle : t ≤ m := (List.max?_eq_some_iff'.mp hmax).2 t ht
        rw [hm]
        have hc : ((now : Nat) : Int) - ((m : Nat) : Int) <
            ((3 : Nat) : Int) * 60 := by omega
        show (if ((now : Nat) : Int) - ((m : Nat) : Int) < ((3 : Nat) : Int) * 60
            then false else decide (draw < 3 / 10)) = false
        rw [if_pos hc]
    · rw [if_pos (by simp [hw])]

/-- C6 (witness): concrete gate evaluation with a post 90 minutes ago and a
3-hour minimum interval. -/
theorem claim_C6_witness :
    should_post_dynamic ⟨2, 540, 1320, 3⟩ [630] 720 (1 / 10) = false :=
  claim_C6 ⟨2, 540, 1320, 3⟩ [630] 720 630 (1 / 10) rfl (by decide) (by decide)

/-- C9 (confirmed): after `start()` then `stop()` the scheduler is not
running and its task list is empty, and a second `stop()` is a no-op that
leaves the state unchanged. -/
theorem claim_C9 (s : SchedulerState) :
    (TaskScheduler.stop (TaskScheduler.start s)).running = false ∧
    (TaskScheduler.stop (TaskScheduler.start s)).tasks = [] ∧
    TaskScheduler.stop (TaskScheduler.stop (TaskScheduler.start s)) =
      TaskScheduler.stop (TaskScheduler.start s) := by
  exact ⟨rfl, rfl, rfl⟩

/-- C10 (confirmed): `comment_probability` is divided by 100, so it is a
percentage: 30 yields a 0.3 per-post chance and 0.5 yields 0.005, and the
per-post decision on an uncommented post is exactly `draw <
comment_probability / 100`. -/
theorem claim_C10 :
    comment_probability_fraction 30 = 3 / 10 ∧
    comment_probability_fraction (1 / 2) = 5 / 1000 ∧
    ∀ c draw : ℚ, should_comment false draw c = decide (draw < c / 100) := by
  refine ⟨by norm_num [comment_probability_fraction],
    by norm_num [comment_probability_fraction], fun c draw => rfl⟩

/-- C4 (confirmed): starting from an empty store, any sequence of
`save_message` calls by one whitelisted user within one day whose length
reaches the cap leaves exactly `max_daily_messages` records for that
user-day: once the count reaches the cap, `save_message` returns without
inserting. -/
theorem claim_C4 (cfg : MemoryConfig) (today : Int) (u : String)
    (msgs : List String) (he : cfg.enable_memory = true)
    (hw : is_user_in_whitelist cfg u = true)
    (hn : cfg.max_daily_messages ≤ msgs.length) :
    get_daily_message_count (save_messages cfg ⟨[], []⟩ today u msgs) u today =
      cfg.max_daily_messages := by
  have h0 : get_daily_message_count ⟨[], []⟩ u today = 0 := rfl
  have h := save_messages_count cfg today u he hw msgs ⟨[], []⟩
    (by rw [h0]; exact Nat.zero_le _)
  rw [h, h0]
  omega

/-- C4 (witness): a whitelisted user sending three messages against a cap
of two ends the day with exactly two stored records. -/
theorem claim_C4_witness :
    get_daily_message_count
        (save_messages ⟨true, ["u"], 2, 30⟩ ⟨[], []⟩ 0 "u" ["a", "b", "c"])
        "u" 0 = 2 :=
  claim_C4 ⟨true, ["u"], 2, 30⟩ 0 "u" ["a", "b", "c"] rfl (by decide) (by decide)

/-- C7 (confirmed): when a summary is already stored for `(user, date)`,
`generate_daily_summary` returns its content, leaves the database
unchanged, and does not consult the LLM, whatever the LLM would have
answered. -/
theorem claim_C7 (db : MemoryDB) (u : String) (d : Int)
    (llm_response : Option String) (ex : DailySummary)
    (hex : get_daily_summary db u d = some ex) :
    generate_daily_summary db u d llm_response =
      ⟨some ex.summary_content, db, false⟩ := by
  unfold generate_daily_summary
  rw [hex]

/-- C7 (witness): a second summary attempt for an already-summarized date
returns the cached content with no write and no LLM call, even though the
LLM would have answered differently. -/
theorem claim_C7_witness :
    generate_daily_summary ⟨[], [⟨"u", 0, "s", 3⟩]⟩ "u" 0 (some "other") =
      ⟨some "s", ⟨[], [⟨"u", 0, "s", 3⟩]⟩, false⟩ :=
  claim_C7 ⟨[], [⟨"u", 0, "s", 3⟩]⟩ "u" 0 (some "other") ⟨"u", 0, "s", 3⟩ rfl

/-- C8 (confirmed): after `cleanup_old_data`, every remaining chat record
is dated at or after `now - memory_days` and every remaining summary at or
after `now - memory_days * 2`: nothing older than the horizon (twice the
horizon for summaries) survives the sweep. -/
theorem claim_C8 (cfg : MemoryConfig) (db : MemoryDB) (now_date : Int) :
    (∀ r ∈ (cleanup_old_data cfg db now_date).chat_records,
      now_date - cfg.memory_days ≤ r.message_date) ∧
    (∀ s ∈ (cleanup_old_data cfg db now_date).daily_summaries,
      now_date - cfg.memory_days * 2 ≤ s.summary_date) := by
  constructor
  · intro r hr
    have := List.of_mem_filter hr
    simp only [Bool.not_eq_true', decide_eq_false_iff_not, not_lt] at this
    exact this
  · intro s hs
    have := List.of_mem_filter hs
    simp only [Bool.not_eq_true', decide_eq_false_iff_not, not_lt] at this
    exact this

/-- C8 (witness): a sweep at day 0 with a 30-day horizon keeps a record of
day -10 and a summary of day -50, both within their horizons. -/
theorem claim_C8_witness :
    ((0 : Int) - ((30 : Nat) : Int) ≤
      (⟨"u", "hi", -10, "", ""⟩ : ChatRecord).message_date) ∧
    ((0 : Int) - ((30 : Nat) : Int) * 2 ≤
      (⟨"u", -50, "s", 1⟩ : DailySummary).summary_date) := by
  have h := claim_C8 ⟨true, [], 100, 30⟩
    ⟨[⟨"u", "hi", -10, "", ""⟩], [⟨"u", -50, "s", 1⟩]⟩ 0
  exact ⟨h.1 ⟨"u", "hi", -10, "", ""⟩ (by decide),
    h.2 ⟨"u", -50, "s", 1⟩ (by decide)⟩
